import Mathlib

/-!
Verification development for the tg-helper repository: a webhook-driven
Telegram bot that relays user files to Google Drive after an OAuth
authorization handshake.  The definitions below are a shallow embedding of
the Go handlers.  External effects (Firestore reads and writes, the token
exchange, the Telegram file API, HTTP GET, the Drive upload) are supplied
by explicit environment records, and each handler returns the list of
observable actions it performs together with the updated stores.
-/

namespace TgHelper

/-! ## Data model -/

/-- oauth2.Token as returned by oauth2Config.Exchange: the four fields the
code reads (AccessToken, TokenType, RefreshToken, Expiry).  Expiry is an
abstract timestamp. -/
structure OAuthToken where
  accessToken : String
  tokenType : String
  refreshToken : String
  expiry : Int
deriving DecidableEq

/-- UserToken, the Firestore document stored in the user_tokens collection
(part_003 lines 39-46), fields in source order. -/
structure UserToken where
  userID : Int
  refreshToken : String
  tokenType : String
  expiry : Int
  accessToken : String
  createdAt : Int
deriving DecidableEq

/-- The document stored in the oauth_states collection by handleConnectDrive
(part_003 lines 93-96): user_id and created_at. -/
structure StateData where
  userID : Int
  createdAt : Int
deriving DecidableEq

/-- One photo size variant of a Telegram photo message (tgbotapi.PhotoSize):
the fields the code reads. -/
structure PhotoSize where
  fileID : String
  fileSize : Int
deriving DecidableEq

/-- A Telegram document attachment (tgbotapi.Document): the fields the code
reads. -/
structure TgDocument where
  fileID : String
  fileName : String
  fileSize : Int
deriving DecidableEq

/-- The fields of tgbotapi.Message the handlers read.  isCommand models
Message.IsCommand() and command models Message.Command(). -/
structure Message where
  fromID : Int
  chatID : Int
  messageID : Int
  text : String
  isCommand : Bool
  command : String
  document : Option TgDocument
  photo : List PhotoSize
deriving DecidableEq

/-- tgbotapi.Update: the webhook body once decoded; the code only reads
Message. -/
structure Update where
  message : Option Message
deriving DecidableEq

/-! ## Firestore collections as association lists

A Firestore collection keyed by document id is modelled as an association
list from the document id to the document.  Doc(k).Get is alookup, Doc(k).Set
is aupsert and Doc(k).Delete is adelete (deleting every binding of the key,
as Firestore holds one document per id). -/

def alookup {α : Type} (l : List (String × α)) (k : String) : Option α :=
  (l.find? fun p => p.1 == k).map fun p => p.2

def adelete {α : Type} (k : String) (l : List (String × α)) : List (String × α) :=
  l.filter fun p => !(p.1 == k)

def aupsert {α : Type} (k : String) (v : α) (l : List (String × α)) :
    List (String × α) :=
  (k, v) :: adelete k l

theorem alookup_nil {α : Type} (k : String) : alookup ([] : List (String × α)) k = none :=
  rfl

theorem alookup_cons {α : Type} (p : String × α) (t : List (String × α)) (k : String) :
    alookup (p :: t) k = if p.1 == k then some p.2 else alookup t k := by
  cases hb : p.1 == k <;> simp [alookup, List.find?, hb]

theorem alookup_adelete {α : Type} (k : String) (l : List (String × α)) :
    alookup (adelete k l) k = none := by
  induction l with
  | nil => rfl
  | cons p t ih =>
    by_cases h : p.1 = k
    · simpa [adelete, List.filter_cons, h] using ih
    · have hb : (p.1 == k) = false := by simpa using h
      simpa [adelete, List.filter_cons, hb, alookup_cons] using ih

theorem alookup_aupsert_self {α : Type} (k : String) (v : α) (l : List (String × α)) :
    alookup (aupsert k v l) k = some v := by
  simp [aupsert, alookup_cons]

/-- The two Firestore collections the program uses (part_003 lines 32-36):
oauth_states keyed by the state token and user_tokens keyed by the decimal
user id. -/
structure Stores where
  states : List (String × StateData)
  tokens : List (String × UserToken)
deriving DecidableEq

/-! ## URL-safe base64 (encoding/base64 URLEncoding)

handleConnectDrive encodes 32 random bytes with base64.URLEncoding
(alphabet A-Z a-z 0-9 - _ with trailing padding).  Bytes are Nat values
below 256; the encoder emits one Char per 6-bit group. -/

/-- The padding character of standard and URL-safe base64. -/
def padChar : Char := Char.ofNat 61

/-- The URL-safe base64 alphabet: index 0-25 map to A-Z, 26-51 to a-z,
52-61 to the digits, 62 to the hyphen and 63 to the underscore. -/
def sextetChar (n : Nat) : Char :=
  if n < 26 then Char.ofNat (65 + n)
  else if n < 52 then Char.ofNat (97 + (n - 26))
  else if n < 62 then Char.ofNat (48 + (n - 52))
  else if n = 62 then Char.ofNat 45
  else Char.ofNat 95

/-- Inverse alphabet lookup, used only to prove the encoder injective. -/
def sextetVal (c : Char) : Nat :=
  if 65 ≤ c.toNat ∧ c.toNat ≤ 90 then c.toNat - 65
  else if 97 ≤ c.toNat ∧ c.toNat ≤ 122 then 26 + (c.toNat - 97)
  else if 48 ≤ c.toNat ∧ c.toNat ≤ 57 then 52 + (c.toNat - 48)
  else if c.toNat = 45 then 62
  else 63

theorem sextetVal_sextetChar : ∀ n : Nat, n < 64 → sextetVal (sextetChar n) = n := by
  decide

theorem sextetChar_ne_pad : ∀ n : Nat, n < 64 → sextetChar n ≠ padChar := by
  decide

/-- base64 URL-safe encoding of a byte list, three bytes to four output
characters, with padding on the final short group exactly as
encoding/base64 does. -/
def encodeGroups : List Nat → List Char
  | [] => []
  | [b0] =>
      [sextetChar (b0 / 4), sextetChar (b0 % 4 * 16), padChar, padChar]
  | [b0, b1] =>
      [sextetChar (b0 / 4), sextetChar (b0 % 4 * 16 + b1 / 16),
       sextetChar (b1 % 16 * 4), padChar]
  | b0 :: b1 :: b2 :: rest =>
      sextetChar (b0 / 4) :: sextetChar (b0 % 4 * 16 + b1 / 16) ::
      sextetChar (b1 % 16 * 4 + b2 / 64) :: sextetChar (b2 % 64) ::
      encodeGroups rest

/-- base64 URL-safe decoding, used only to show the encoder injective. -/
def decodeGroups : List Char → List Nat
  | c0 :: c1 :: c2 :: c3 :: rest =>
      if c2 = padChar then
        [sextetVal c0 * 4 + sextetVal c1 / 16]
      else if c3 = padChar then
        [sextetVal c0 * 4 + sextetVal c1 / 16,
         sextetVal c1 % 16 * 16 + sextetVal c2 / 4]
      else
        (sextetVal c0 * 4 + sextetVal c1 / 16) ::
        (sextetVal c1 % 16 * 16 + sextetVal c2 / 4) ::
        (sextetVal c2 % 4 * 64 + sextetVal c3) ::
        decodeGroups rest
  | _ => []

theorem decode_encode : ∀ bs : List Nat, (∀ b ∈ bs, b < 256) →
    decodeGroups (encodeGroups bs) = bs
  | [], _ => rfl
  | [b0], h => by
      have hb0 : b0 < 256 := h b0 (by simp)
      have e0 : sextetVal (sextetChar (b0 / 4)) = b0 / 4 :=
        sextetVal_sextetChar _ (by omega)
      have e1 : sextetVal (sextetChar (b0 % 4 * 16)) = b0 % 4 * 16 :=
        sextetVal_sextetChar _ (by omega)
      show decodeGroups [sextetChar (b0 / 4), sextetChar (b0 % 4 * 16), padChar, padChar] = [b0]
      rw [decodeGroups, if_pos rfl, e0, e1]
      have harith : b0 / 4 * 4 + b0 % 4 * 16 / 16 = b0 := by omega
      rw [harith]
  | [b0, b1], h => by
      have hb0 : b0 < 256 := h b0 (by simp)
      have hb1 : b1 < 256 := h b1 (by simp)
      have e0 : sextetVal (sextetChar (b0 / 4)) = b0 / 4 :=
        sextetVal_sextetChar _ (by omega)
      have e1 : sextetVal (sextetChar (b0 % 4 * 16 + b1 / 16)) = b0 % 4 * 16 + b1 / 16 :=
        sextetVal_sextetChar _ (by omega)
      have e2 : sextetVal (sextetChar (b1 % 16 * 4)) = b1 % 16 * 4 :=
        sextetVal_sextetChar _ (by omega)
      have n2 : sextetChar (b1 % 16 * 4) ≠ padChar :=
        sextetChar_ne_pad _ (by omega)
      show decodeGroups [sextetChar (b0 / 4), sextetChar (b0 % 4 * 16 + b1 / 16),
        sextetChar (b1 % 16 * 4), padChar] = [b0, b1]
      rw [decodeGroups, if_neg n2, if_pos rfl, e0, e1, e2]
      have ha0 : b0 / 4 * 4 + (b0 % 4 * 16 + b1 / 16) / 16 = b0 := by omega
      have ha1 : (b0 % 4 * 16 + b1 / 16) % 16 * 16 + b1 % 16 * 4 / 4 = b1 := by omega
      rw [ha0, ha1]
  | b0 :: b1 :: b2 :: rest, h => by
      have hb0 : b0 < 256 := h b0 (by simp)
      have hb1 : b1 < 256 := h b1 (by simp)
      have hb2 : b2 < 256 := h b2 (by simp)
      have e0 : sextetVal (sextetChar (b0 / 4)) = b0 / 4 :=
        sextetVal_sextetChar _ (by omega)
      have e1 : sextetVal (sextetChar (b0 % 4 * 16 + b1 / 16)) = b0 % 4 * 16 + b1 / 16 :=
        sextetVal_sextetChar _ (by omega)
      have e2 : sextetVal (sextetChar (b1 % 16 * 4 + b2 / 64)) = b1 % 16 * 4 + b2 / 64 :=
        sextetVal_sextetChar _ (by omega)
      have e3 : sextetVal (sextetChar (b2 % 64)) = b2 % 64 :=
        sextetVal_sextetChar _ (by omega)
      have n2 : sextetChar (b1 % 16 * 4 + b2 / 64) ≠ padChar :=
        sextetChar_ne_pad _ (by omega)
      have n3 : sextetChar (b2 % 64) ≠ padChar :=
        sextetChar_ne_pad _ (by omega)
      have ih := decode_encode rest (fun b hb => h b (by simp [hb]))
      show decodeGroups (sextetChar (b0 / 4) :: sextetChar (b0 % 4 * 16 + b1 / 16) ::
        sextetChar (b1 % 16 * 4 + b2 / 64) :: sextetChar (b2 % 64) ::
        encodeGroups rest) = b0 :: b1 :: b2 :: rest
      rw [decodeGroups, if_neg n2, if_neg n3, e0, e1, e2, e3, ih]
      have ha0 : b0 / 4 * 4 + (b0 % 4 * 16 + b1 / 16) / 16 = b0 := by omega
      have ha1 : (b0 % 4 * 16 + b1 / 16) % 16 * 16 + (b1 % 16 * 4 + b2 / 64) / 4 = b1 := by
        omega
      have ha2 : (b1 % 16 * 4 + b2 / 64) % 4 * 64 + b2 % 64 = b2 := by omega
      rw [ha0, ha1, ha2]

theorem encodeGroups_inj (bs1 bs2 : List Nat)
    (h1 : ∀ b ∈ bs1, b < 256) (h2 : ∀ b ∈ bs2, b < 256)
    (he : encodeGroups bs1 = encodeGroups bs2) : bs1 = bs2 := by
  rw [← decode_encode bs1 h1, ← decode_encode bs2 h2, he]

theorem encodeGroups_length : ∀ bs : List Nat,
    (encodeGroups bs).length = 4 * ((bs.length + 2) / 3)
  | [] => rfl
  | [b0] => by simp [encodeGroups]
  | [b0, b1] => by simp [encodeGroups]
  | b0 :: b1 :: b2 :: rest => by
      have ih := encodeGroups_length rest
      simp only [encodeGroups, List.length_cons, ih]
      omega

/-- base64.URLEncoding.EncodeToString. -/
def base64URL (bs : List Nat) : String := String.mk (encodeGroups bs)

/-! ## Observable effects

Each user-visible reply the handlers can send (one constructor per
replyToUser or fmt.Fprintf call site in the source, carrying the data the
source interpolates into the text). -/

/-- The replies of part_003 (and the extra bad-status reply of part_002).
sizeExceeded renders its fileSize divided by 1024*1024 with two decimals
(the oversize text of part_003 line 215); uploadSuccess and authLink carry
the interpolated file name and URL. -/
inductive Reply where
  | welcome
  | unknownCommand
  | promptSendFile
  | authLink (url : String)
  | stateSaveError
  | notLinked
  | lookupError
  | driveServiceError
  | sizeExceeded (fileSize : Int)
  | getFileError
  | downloadError
  | downloadBadStatus
  | uploadFailed
  | uploadSuccess (fileName : String)
deriving DecidableEq

/-- One observable step of a file-relay invocation, in program order:
the Firestore credential read, the oauth2/Drive client construction (with
the token the client is bound to), the Telegram GetFileDirectURL call, the
HTTP GET of the direct URL, the release of the response body, the Drive
Files.Create upload (with the name and the streamed body), and each reply
sent. -/
inductive Action where
  | lookupToken (docID : String)
  | buildDriveClient (tok : OAuthToken)
  | getFileDirectURL (fileID : String)
  | httpGet (url : String)
  | closeBody (url : String)
  | driveUpload (fileName : String) (body : String)
  | reply (r : Reply)
deriving DecidableEq

/-- True exactly on the two download-side network calls: the direct-URL
request to Telegram and the GET of the returned URL. -/
def Action.isDownloadCall : Action → Bool
  | .getFileDirectURL _ => true
  | .httpGet _ => true
  | _ => false

/-- An HTTP response as handleFile sees it: status code and body stream. -/
structure HttpResp where
  statusCode : Nat
  body : String
deriving DecidableEq

/-! ## Environments

The outcomes of the external calls each handler makes, fixed per
invocation. -/

/-- Environment of handleFile: whether the Firestore credential read fails
with a non-NotFound error, whether drive.NewService succeeds, the outcome
of bot.GetFileDirectURL per file id, the outcome of http.Get per URL
(none models a transport error), and whether Files.Create.Do succeeds. -/
structure FileEnv where
  lookupTransientFail : Bool
  driveServiceOk : Bool
  getDirectURL : String → Option String
  httpGet : String → Option HttpResp
  uploadOk : Bool

/-- Environment of handleConnectDrive: the 32 bytes crypto/rand.Read
fills (under the Go 1.24 toolchain of the Dockerfile, crypto/rand.Read
always fills the buffer and never returns an error), whether the Firestore
state write succeeds, and the current time. -/
structure ConnectEnv where
  randBytes : List Nat
  saveStateOk : Bool
  now : Int

/-- Environment of oauthCallbackHandler: the outcome of
oauth2Config.Exchange per authorization code (none models an exchange
failure), whether the Firestore token write succeeds, and the current
time. -/
structure CallbackEnv where
  exchange : String → Option OAuthToken
  saveTokenOk : Bool
  now : Int

/-- The three ways the callback handler answers the browser. -/
inductive HttpOut where
  | badRequest (msg : String)
  | internalError (msg : String)
  | ok (msg : String)
deriving DecidableEq

def HttpOut.status : HttpOut → Nat
  | .badRequest _ => 400
  | .internalError _ => 500
  | .ok _ => 200

/-! ## Handlers (part_003, the OAuth relay) -/

/-- fmt.Sprintf of the user id, the document id used in the user_tokens
collection (part_003 lines 148 and 165). -/
def tokenDocID (userID : Int) : String := toString userID

/-- The 20 MiB ceiling of part_003 line 212. -/
def maxFileSize : Int := 20 * 1024 * 1024

/-- oauth2Config.AuthCodeURL(state, AccessTypeOffline, ApprovalForce):
the Google authorization URL carrying the state token. -/
def authCodeURL (state : String) : String :=
  "https://accounts.google.com/o/oauth2/auth?access_type=offline&approval_prompt=force&response_type=code&state="
    ++ state

/-- handleConnectDrive (part_003 lines 85-106): encode 32 random bytes
with base64.URLEncoding, write the state document keyed by that token with
the sender id and the current time, and reply with the authorization URL;
on a failed write, reply with an error and leave the store unchanged. -/
def handleConnectDrive (env : ConnectEnv) (stores : Stores) (msg : Message) :
    List Action × Stores :=
  let state := base64URL env.randBytes
  if env.saveStateOk then
    ([Action.reply (Reply.authLink (authCodeURL state))],
     { stores with states := aupsert state ⟨msg.fromID, env.now⟩ stores.states })
  else
    ([Action.reply Reply.stateSaveError], stores)

/-- oauthCallbackHandler (part_003 lines 109-157): look the state token up
in oauth_states (unknown token answers 400); a found document is deleted by
a deferred Delete on every later exit; exchange the code (failure answers
500); write the UserToken keyed by the owning user id (failure answers
500); answer 200 with the confirmation text. -/
def oauthCallbackHandler (env : CallbackEnv) (stores : Stores)
    (state code : String) : HttpOut × Stores :=
  match alookup stores.states state with
  | none => (HttpOut.badRequest "Invalid state parameter. Please try again.", stores)
  | some sd =>
    let stores1 : Stores := { stores with states := adelete state stores.states }
    match env.exchange code with
    | none => (HttpOut.internalError "Failed to exchange token.", stores1)
    | some tok =>
      let ut : UserToken :=
        ⟨sd.userID, tok.refreshToken, tok.tokenType, tok.expiry,
         tok.accessToken, env.now⟩
      if env.saveTokenOk then
        (HttpOut.ok "授權成功！您現在可以回到 Telegram 傳送檔案給機器人了。",
         { stores1 with tokens := aupsert (tokenDocID sd.userID) ut stores1.tokens })
      else
        (HttpOut.internalError "Failed to save token.", stores1)

/-- The attachment classification of part_003 lines 198-209 (identical in
part_000/part_002/main.go): a document yields its file id, its explicit
name and its declared size; otherwise a non-empty photo list yields the
last (highest-resolution) variant, whose name is the variant file id with
the fixed extension ".jpg"; any other shape yields nothing. -/
def classifyAttachment (m : Message) : Option (String × String × Int) :=
  match m.document with
  | some d => some (d.fileID, d.fileName, d.fileSize)
  | none =>
    match m.photo.getLast? with
    | some p => some (p.fileID, p.fileID ++ ".jpg", p.fileSize)
    | none => none

/-- Lines 211-245 of part_003, after the attachment is classified: the
size guard, the direct-URL request, the GET (whose body, once obtained, is
released by a deferred Close at the end of every path), and the Drive
upload streaming the response body.  No status-code check is made on the
GET response. -/
def relayFile (env : FileEnv) (fileID fileName : String) (fileSize : Int) :
    List Action :=
  if maxFileSize < fileSize then
    [Action.reply (Reply.sizeExceeded fileSize)]
  else
    Action.getFileDirectURL fileID ::
    match env.getDirectURL fileID with
    | none => [Action.reply Reply.getFileError]
    | some url =>
      Action.httpGet url ::
      match env.httpGet url with
      | none => [Action.reply Reply.downloadError]
      | some resp =>
        Action.driveUpload fileName resp.body ::
        ((if env.uploadOk then [Action.reply (Reply.uploadSuccess fileName)]
          else [Action.reply Reply.uploadFailed]) ++ [Action.closeBody url])

/-- handleFile (part_003 lines 160-246): read the UserToken of the sender from
user_tokens (NotFound replies the not-linked prompt, any other read error
replies the transient error); build the oauth2 client bound to exactly the
four stored token fields and the Drive service over it; then classify the
attachment and run the relay steps of relayFile. -/
def handleFile (env : FileEnv) (stores : Stores) (msg : Message) : List Action :=
  let key := tokenDocID msg.fromID
  Action.lookupToken key ::
  (if env.lookupTransientFail then
    [Action.reply Reply.lookupError]
   else
    match alookup stores.tokens key with
    | none => [Action.reply Reply.notLinked]
    | some ut =>
      Action.buildDriveClient ⟨ut.accessToken, ut.tokenType, ut.refreshToken, ut.expiry⟩ ::
      (if env.driveServiceOk then
        match classifyAttachment msg with
        | none => []
        | some (fileID, fileName, fileSize) => relayFile env fileID fileName fileSize
       else [Action.reply Reply.driveServiceError]))

/-- handleFile of part_002 (the service-account relay, lines 56-121): same
classification, no credential lookup and no size guard, but the GET
response status is checked: a non-200 status replies a download error and
returns before the upload, with the body still released by the deferred
Close. -/
def handleFileSA (env : FileEnv) (msg : Message) : List Action :=
  match classifyAttachment msg with
  | none => []
  | some (fileID, fileName, _) =>
    Action.getFileDirectURL fileID ::
    match env.getDirectURL fileID with
    | none => [Action.reply Reply.getFileError]
    | some url =>
      Action.httpGet url ::
      match env.httpGet url with
      | none => [Action.reply Reply.downloadError]
      | some resp =>
        if resp.statusCode ≠ 200 then
          [Action.reply Reply.downloadBadStatus, Action.closeBody url]
        else
          Action.driveUpload fileName resp.body ::
          ((if env.uploadOk then [Action.reply (Reply.uploadSuccess fileName)]
            else [Action.reply Reply.uploadFailed]) ++ [Action.closeBody url])

/-- webhookHandler (part_003 lines 249-278): a body that fails to decode
(modelled as none) answers 400 with no processing; an update with no
message answers 200; a command routes through the fixed command table; a
document- or photo-bearing message runs handleFile; anything else replies
the send-a-file prompt; every decoded update answers 200. -/
def webhookHandler (cenv : ConnectEnv) (fenv : FileEnv) (stores : Stores)
    (body : Option Update) : Nat × List Action × Stores :=
  match body with
  | none => (400, [], stores)
  | some u =>
    match u.message with
    | none => (200, [], stores)
    | some m =>
      if m.isCommand then
        if m.command = "start" then
          (200, [Action.reply Reply.welcome], stores)
        else if m.command = "connect_drive" then
          let out := handleConnectDrive cenv stores m
          (200, out.1, out.2)
        else
          (200, [Action.reply Reply.unknownCommand], stores)
      else if m.document.isSome || !m.photo.isEmpty then
        (200, handleFile fenv stores m, stores)
      else
        (200, [Action.reply Reply.promptSendFile], stores)

/-! ## Behaviour lemmas for the callback handler -/

theorem callback_unknown_state (env : CallbackEnv) (stores : Stores) (st code : String)
    (h : alookup stores.states st = none) :
    oauthCallbackHandler env stores st code =
      (HttpOut.badRequest "Invalid state parameter. Please try again.", stores) := by
  unfold oauthCallbackHandler
  rw [h]

theorem callback_exchange_failed (env : CallbackEnv) (stores : Stores) (st code : String)
    (sd : StateData) (hst : alookup stores.states st = some sd)
    (hex : env.exchange code = none) :
    oauthCallbackHandler env stores st code =
      (HttpOut.internalError "Failed to exchange token.",
       { stores with states := adelete st stores.states }) := by
  unfold oauthCallbackHandler
  rw [hst]
  simp only [hex]

theorem callback_save_failed (env : CallbackEnv) (stores : Stores) (st code : String)
    (sd : StateData) (tok : OAuthToken) (hst : alookup stores.states st = some sd)
    (hex : env.exchange code = some tok) (hsave : env.saveTokenOk = false) :
    oauthCallbackHandler env stores st code =
      (HttpOut.internalError "Failed to save token.",
       { stores with states := adelete st stores.states }) := by
  unfold oauthCallbackHandler
  rw [hst]
  simp only [hex, hsave, Bool.false_eq_true, if_false]

theorem callback_success (env : CallbackEnv) (stores : Stores) (st code : String)
    (sd : StateData) (tok : OAuthToken) (hst : alookup stores.states st = some sd)
    (hex : env.exchange code = some tok) (hsave : env.saveTokenOk = true) :
    oauthCallbackHandler env stores st code =
      (HttpOut.ok "授權成功！您現在可以回到 Telegram 傳送檔案給機器人了。",
       ⟨adelete st stores.states,
        aupsert (tokenDocID sd.userID)
          ⟨sd.userID, tok.refreshToken, tok.tokenType, tok.expiry, tok.accessToken, env.now⟩
          stores.tokens⟩) := by
  unfold oauthCallbackHandler
  rw [hst]
  simp only [hex, hsave, if_true]

/-! ## Behaviour lemmas for the file relay -/

theorem handleFile_found (env : FileEnv) (stores : Stores) (msg : Message) (ut : UserToken)
    (h1 : env.lookupTransientFail = false)
    (h2 : alookup stores.tokens (tokenDocID msg.fromID) = some ut) :
    handleFile env stores msg =
      Action.lookupToken (tokenDocID msg.fromID) ::
      Action.buildDriveClient ⟨ut.accessToken, ut.tokenType, ut.refreshToken, ut.expiry⟩ ::
      (if env.driveServiceOk then
        (match classifyAttachment msg with
         | none => []
         | some (fid, name, size) => relayFile env fid name size)
       else [Action.reply Reply.driveServiceError]) := by
  unfold handleFile
  simp only [h1, h2, Bool.false_eq_true, if_false]

theorem handleFile_linked (env : FileEnv) (stores : Stores) (msg : Message) (ut : UserToken)
    (h1 : env.lookupTransientFail = false)
    (h2 : alookup stores.tokens (tokenDocID msg.fromID) = some ut)
    (h3 : env.driveServiceOk = true) :
    handleFile env stores msg =
      Action.lookupToken (tokenDocID msg.fromID) ::
      Action.buildDriveClient ⟨ut.accessToken, ut.tokenType, ut.refreshToken, ut.expiry⟩ ::
      (match classifyAttachment msg with
       | none => []
       | some (fid, name, size) => relayFile env fid name size) := by
  rw [handleFile_found env stores msg ut h1 h2]
  simp [h3]

/-! ## Sample values used by the witnesses -/

def wTok : OAuthToken := ⟨"acc", "Bearer", "ref", 99⟩

def wStores : Stores := ⟨[("stateTok", ⟨7, 0⟩)], []⟩

def wEnvOk : CallbackEnv := ⟨fun _ => some wTok, true, 5⟩

/-- A linked sender: user 7 with a stored credential. -/
def xUT : UserToken := ⟨7, "r", "Bearer", 0, "a", 0⟩

def xStores : Stores := ⟨[], [(tokenDocID 7, xUT)]⟩

/-- A document message from user 7. -/
def xMsg : Message := ⟨7, 7, 1, "", false, "", some ⟨"abc123", "report.pdf", 500000⟩, []⟩

/-- An environment whose GET of the direct URL answers HTTP 404. -/
def xEnv404 : FileEnv :=
  ⟨false, true, fun _ => some "https://tg.example/f/abc123",
   fun _ => some ⟨404, "NotFound"⟩, true⟩

/-- An oversize document message (21000000 declared bytes) from user 7. -/
def xMsgBig : Message := ⟨7, 7, 1, "", false, "", some ⟨"big1", "big.bin", 21000000⟩, []⟩

/-! ## Claims -/

/-- Claim C1: a state token found by oauthCallbackHandler is deleted from
the state store on every exit path of that invocation, so a second
callback presenting the same token is answered with the invalid-state
HTTP 400 error. -/
theorem stateToken_single_use (env1 env2 : CallbackEnv) (stores : Stores)
    (st code1 code2 : String) (sd : StateData)
    (hfound : alookup stores.states st = some sd) :
    alookup (oauthCallbackHandler env1 stores st code1).2.states st = none ∧
    (oauthCallbackHandler env2 (oauthCallbackHandler env1 stores st code1).2
      st code2).1.status = 400 := by
  have hdel : (oauthCallbackHandler env1 stores st code1).2.states =
      adelete st stores.states := by
    unfold oauthCallbackHandler
    rw [hfound]
    cases hex : env1.exchange code1 with
    | none => rfl
    | some tok =>
      by_cases hs : env1.saveTokenOk
      · simp only [hs, if_true]
      · simp only [hs, Bool.false_eq_true, if_false]
  have hnone : alookup (oauthCallbackHandler env1 stores st code1).2.states st = none := by
    rw [hdel]
    exact alookup_adelete st stores.states
  refine ⟨hnone, ?_⟩
  rw [callback_unknown_state env2 _ st code2 hnone]
  rfl

/-- Witness for C1 at a concrete store holding the token "stateTok". -/
theorem stateToken_single_use_witness :
    alookup (oauthCallbackHandler wEnvOk wStores "stateTok" "code").2.states "stateTok" = none ∧
    (oauthCallbackHandler wEnvOk (oauthCallbackHandler wEnvOk wStores "stateTok" "code").2
      "stateTok" "code").1.status = 400 :=
  stateToken_single_use wEnvOk wEnvOk wStores "stateTok" "code" "code" ⟨7, 0⟩ rfl

/-- Claim C2: the callback answers 400 on an unknown state token and 500 on
a failed exchange or a failed credential write, leaving the credential
store unchanged in those three cases, and on success answers 200 with the
confirmation text and upserts the UserCredential of the owning
user of the state with the exchanged token fields. -/
theorem callback_error_handling (env : CallbackEnv) (stores : Stores) (st code : String) :
    (alookup stores.states st = none →
      (oauthCallbackHandler env stores st code).1.status = 400 ∧
      (oauthCallbackHandler env stores st code).2.tokens = stores.tokens) ∧
    (∀ sd : StateData, alookup stores.states st = some sd → env.exchange code = none →
      (oauthCallbackHandler env stores st code).1.status = 500 ∧
      (oauthCallbackHandler env stores st code).2.tokens = stores.tokens) ∧
    (∀ (sd : StateData) (tok : OAuthToken),
      alookup stores.states st = some sd → env.exchange code = some tok →
      env.saveTokenOk = true →
      (oauthCallbackHandler env stores st code).1 =
        HttpOut.ok "授權成功！您現在可以回到 Telegram 傳送檔案給機器人了。" ∧
      (oauthCallbackHandler env stores st code).2.tokens =
        aupsert (tokenDocID sd.userID)
          ⟨sd.userID, tok.refreshToken, tok.tokenType, tok.expiry, tok.accessToken, env.now⟩
          stores.tokens) ∧
    (∀ (sd : StateData) (tok : OAuthToken),
      alookup stores.states st = some sd → env.exchange code = some tok →
      env.saveTokenOk = false →
      (oauthCallbackHandler env stores st code).1.status = 500 ∧
      (oauthCallbackHandler env stores st code).2.tokens = stores.tokens) := by
  refine ⟨?_, ?_, ?_, ?_⟩
  · intro h
    rw [callback_unknown_state env stores st code h]
    exact ⟨rfl, rfl⟩
  · intro sd hst hex
    rw [callback_exchange_failed env stores st code sd hst hex]
    exact ⟨rfl, rfl⟩
  · intro sd tok hst hex hsave
    rw [callback_success env stores st code sd tok hst hex hsave]
    exact ⟨rfl, rfl⟩
  · intro sd tok hst hex hsave
    rw [callback_save_failed env stores st code sd tok hst hex hsave]
    exact ⟨rfl, rfl⟩

/-- Witness for C2 on the success branch at a concrete state store and
exchange outcome. -/
theorem callback_error_handling_witness :
    (oauthCallbackHandler wEnvOk wStores "stateTok" "code").1 =
      HttpOut.ok "授權成功！您現在可以回到 Telegram 傳送檔案給機器人了。" ∧
    (oauthCallbackHandler wEnvOk wStores "stateTok" "code").2.tokens =
      aupsert (tokenDocID 7) ⟨7, "ref", "Bearer", 99, "acc", 5⟩ [] :=
  (callback_error_handling wEnvOk wStores "stateTok" "code").2.2.1 ⟨7, 0⟩ wTok rfl rfl rfl

/-- Claim C3: a file event from a linked sender whose declared size
exceeds 20 MiB makes no direct-URL request and no GET, and replies with
the oversize message carrying that size (which the reply text renders in
MiB). -/
theorem oversize_rejected_before_download (env : FileEnv) (stores : Stores) (msg : Message)
    (fid name : String) (size : Int) (ut : UserToken)
    (h1 : env.lookupTransientFail = false)
    (h2 : alookup stores.tokens (tokenDocID msg.fromID) = some ut)
    (h3 : env.driveServiceOk = true)
    (h4 : classifyAttachment msg = some (fid, name, size))
    (h5 : maxFileSize < size) :
    Action.reply (Reply.sizeExceeded size) ∈ handleFile env stores msg ∧
    ∀ a ∈ handleFile env stores msg, a.isDownloadCall = false := by
  have ht : handleFile env stores msg =
      [Action.lookupToken (tokenDocID msg.fromID),
       Action.buildDriveClient ⟨ut.accessToken, ut.tokenType, ut.refreshToken, ut.expiry⟩,
       Action.reply (Reply.sizeExceeded size)] := by
    rw [handleFile_linked env stores msg ut h1 h2 h3]
    simp [h4, relayFile, h5]
  rw [ht]
  refine ⟨by simp, ?_⟩
  intro a ha
  simp only [List.mem_cons, List.not_mem_nil, or_false] at ha
  rcases ha with rfl | rfl | rfl <;> rfl

/-- Witness for C3 at the example size of the claim of 21000000 declared
bytes. -/
theorem oversize_rejected_before_download_witness :
    Action.reply (Reply.sizeExceeded 21000000) ∈ handleFile xEnv404 xStores xMsgBig ∧
    ∀ a ∈ handleFile xEnv404 xStores xMsgBig, a.isDownloadCall = false :=
  oversize_rejected_before_download xEnv404 xStores xMsgBig "big1" "big.bin" 21000000 xUT
    rfl rfl rfl rfl (by decide)

/-- Claim C4: a file event whose sender has no stored credential replies
the not-linked prompt and performs nothing else (no client construction,
no download, no upload); a non-NotFound credential-lookup failure replies
the transient-error message and likewise terminates. -/
theorem unlinked_no_provider_calls (env envT : FileEnv) (stores : Stores) (msg : Message) :
    (env.lookupTransientFail = false →
      alookup stores.tokens (tokenDocID msg.fromID) = none →
      handleFile env stores msg =
        [Action.lookupToken (tokenDocID msg.fromID), Action.reply Reply.notLinked]) ∧
    (envT.lookupTransientFail = true →
      handleFile envT stores msg =
        [Action.lookupToken (tokenDocID msg.fromID), Action.reply Reply.lookupError]) := by
  constructor
  · intro h1 h2
    unfold handleFile
    simp only [h1, h2, Bool.false_eq_true, if_false]
  · intro h1
    unfold handleFile
    simp only [h1, if_true]

/-- Witness for C4: user 9 has no credential in the sample store. -/
theorem unlinked_no_provider_calls_witness :
    handleFile xEnv404 xStores ⟨9, 9, 1, "", false, "", some ⟨"abc123", "report.pdf", 500000⟩, []⟩ =
      [Action.lookupToken (tokenDocID 9), Action.reply Reply.notLinked] :=
  (unlinked_no_provider_calls xEnv404 xEnv404 xStores
    ⟨9, 9, 1, "", false, "", some ⟨"abc123", "report.pdf", 500000⟩, []⟩).1 rfl rfl

/-- Claim C10: the size guard is a strict comparison on the declared size
only, so a declared size of 0 (the decoding of an absent size) and the
exact boundary 20*1024*1024 both pass the guard and the relay proceeds to
the direct-URL request and the GET. -/
theorem size_guard_strict (env : FileEnv) (stores : Stores) (msg : Message)
    (fid name url : String) (size : Int) (ut : UserToken)
    (h1 : env.lookupTransientFail = false)
    (h2 : alookup stores.tokens (tokenDocID msg.fromID) = some ut)
    (h3 : env.driveServiceOk = true)
    (h4 : classifyAttachment msg = some (fid, name, size))
    (h5 : size ≤ maxFileSize)
    (h6 : env.getDirectURL fid = some url) :
    Action.getFileDirectURL fid ∈ handleFile env stores msg ∧
    Action.httpGet url ∈ handleFile env stores msg := by
  have hnot : ¬(maxFileSize < size) := not_lt.mpr h5
  rw [handleFile_linked env stores msg ut h1 h2 h3]
  simp only [h4]
  unfold relayFile
  rw [if_neg hnot, h6]
  cases hget : env.httpGet url with
  | none => exact ⟨by simp, by simp⟩
  | some resp => exact ⟨by simp, by simp⟩

/-- Witness for C10 at the exact 20 MiB boundary (20971520 declared
bytes). -/
theorem size_guard_strict_witness :
    Action.getFileDirectURL "b20" ∈
      handleFile xEnv404 xStores ⟨7, 7, 1, "", false, "", some ⟨"b20", "b.bin", 20971520⟩, []⟩ ∧
    Action.httpGet "https://tg.example/f/abc123" ∈
      handleFile xEnv404 xStores ⟨7, 7, 1, "", false, "", some ⟨"b20", "b.bin", 20971520⟩, []⟩ :=
  size_guard_strict xEnv404 xStores ⟨7, 7, 1, "", false, "", some ⟨"b20", "b.bin", 20971520⟩, []⟩
    "b20" "b.bin" "https://tg.example/f/abc123" 20971520 xUT rfl rfl rfl rfl (by decide) rfl

/-- Counterexample to claim C5 as stated: in the OAuth relay of part_003,
a GET of the direct URL that answers HTTP 404 does not terminate the
relay.  At this concrete input the GET of the environment yields status 404
with body "NotFound", yet the trace proceeds to upload that body to Drive
and replies with the upload confirmation; no download-error reply is
ever sent. -/
theorem oauth_relay_uploads_on_bad_status :
    xEnv404.httpGet "https://tg.example/f/abc123" = some ⟨404, "NotFound"⟩ ∧
    handleFile xEnv404 xStores xMsg =
      [Action.lookupToken "7", Action.buildDriveClient ⟨"a", "Bearer", "r", 0⟩,
       Action.getFileDirectURL "abc123", Action.httpGet "https://tg.example/f/abc123",
       Action.driveUpload "report.pdf" "NotFound",
       Action.reply (Reply.uploadSuccess "report.pdf"),
       Action.closeBody "https://tg.example/f/abc123"] :=
  ⟨rfl, rfl⟩

/-- Claim C5 as amended: in the OAuth relay (part_003) a transport failure
on the GET replies a user-facing error and terminates without upload,
but a non-success HTTP status is not checked: a GET that returns a
response is always followed by the upload of its body, with the response
body released at the end of every such path.  In the service-account relay
(part_002) a non-200 status or a transport failure terminates before the
upload with a user-facing error, the body again released whenever the GET
returned one. -/
theorem download_error_handling (env : FileEnv) (stores : Stores) (msg : Message)
    (fid name url : String) (size : Int) (ut : UserToken) (resp : HttpResp)
    (h1 : env.lookupTransientFail = false)
    (h2 : alookup stores.tokens (tokenDocID msg.fromID) = some ut)
    (h3 : env.driveServiceOk = true)
    (h4 : classifyAttachment msg = some (fid, name, size))
    (h5 : size ≤ maxFileSize)
    (h6 : env.getDirectURL fid = some url) :
    (env.httpGet url = none →
      handleFile env stores msg =
        [Action.lookupToken (tokenDocID msg.fromID),
         Action.buildDriveClient ⟨ut.accessToken, ut.tokenType, ut.refreshToken, ut.expiry⟩,
         Action.getFileDirectURL fid, Action.httpGet url,
         Action.reply Reply.downloadError]) ∧
    (env.httpGet url = some resp →
      Action.driveUpload name resp.body ∈ handleFile env stores msg ∧
      Action.closeBody url ∈ handleFile env stores msg) ∧
    (env.httpGet url = some resp → resp.statusCode ≠ 200 →
      handleFileSA env msg =
        [Action.getFileDirectURL fid, Action.httpGet url,
         Action.reply Reply.downloadBadStatus, Action.closeBody url]) ∧
    (env.httpGet url = none →
      handleFileSA env msg =
        [Action.getFileDirectURL fid, Action.httpGet url,
         Action.reply Reply.downloadError]) := by
  have hnot : ¬(maxFileSize < size) := not_lt.mpr h5
  refine ⟨?_, ?_, ?_, ?_⟩
  · intro hget
    rw [handleFile_linked env stores msg ut h1 h2 h3]
    simp [h4, relayFile, hnot, h6, hget]
  · intro hget
    rw [handleFile_linked env stores msg ut h1 h2 h3]
    simp only [h4]
    unfold relayFile
    rw [if_neg hnot, h6]
    constructor
    · simp [hget]
    · cases hup : env.uploadOk <;> simp [hget, hup]
  · intro hget hstatus
    unfold handleFileSA
    simp [h4, h6, hget, hstatus]
  · intro hget
    unfold handleFileSA
    simp [h4, h6, hget]

/-- Witness for the amended C5 on the service-account relay at the 404
response. -/
theorem download_error_handling_witness :
    handleFileSA xEnv404 xMsg =
      [Action.getFileDirectURL "abc123", Action.httpGet "https://tg.example/f/abc123",
       Action.reply Reply.downloadBadStatus, Action.closeBody "https://tg.example/f/abc123"] :=
  (download_error_handling xEnv404 xStores xMsg "abc123" "report.pdf"
    "https://tg.example/f/abc123" 500000 xUT ⟨404, "NotFound"⟩
    rfl rfl rfl rfl (by decide) rfl).2.2.1 rfl (by decide)

/-- Claim C6: a document message is classified to the file id of the document,
explicit file name and declared size; a photo message is classified to its
last (highest-resolution) size variant, the name being the file id of that
variant with ".jpg" appended, and the relay uploads under that name; a message
of any other shape makes the relay terminate silently once the credential
and client steps have passed, replying nothing and touching no file API. -/
theorem attachment_classification (m : Message) (d : TgDocument) (p : PhotoSize)
    (env : FileEnv) (stores : Stores) (ut : UserToken) (url : String) (resp : HttpResp) :
    (m.document = some d → classifyAttachment m = some (d.fileID, d.fileName, d.fileSize)) ∧
    (m.document = none → m.photo.getLast? = some p →
      classifyAttachment m = some (p.fileID, p.fileID ++ ".jpg", p.fileSize)) ∧
    (m.document = none → m.photo = [] →
      env.lookupTransientFail = false →
      alookup stores.tokens (tokenDocID m.fromID) = some ut →
      env.driveServiceOk = true →
      handleFile env stores m =
        [Action.lookupToken (tokenDocID m.fromID),
         Action.buildDriveClient ⟨ut.accessToken, ut.tokenType, ut.refreshToken, ut.expiry⟩]) ∧
    (m.document = none → m.photo.getLast? = some p →
      env.lookupTransientFail = false →
      alookup stores.tokens (tokenDocID m.fromID) = some ut →
      env.driveServiceOk = true →
      p.fileSize ≤ maxFileSize →
      env.getDirectURL p.fileID = some url →
      env.httpGet url = some resp →
      Action.driveUpload (p.fileID ++ ".jpg") resp.body ∈ handleFile env stores m) := by
  refine ⟨?_, ?_, ?_, ?_⟩
  · intro hd
    unfold classifyAttachment
    rw [hd]
  · intro hd hp
    unfold classifyAttachment
    rw [hd, hp]
  · intro hd hp h1 h2 h3
    have hcls : classifyAttachment m = none := by
      unfold classifyAttachment
      rw [hd, hp]
      rfl
    rw [handleFile_linked env stores m ut h1 h2 h3]
    simp [hcls]
  · intro hd hp h1 h2 h3 hsize hurl hget
    have hcls : classifyAttachment m = some (p.fileID, p.fileID ++ ".jpg", p.fileSize) := by
      unfold classifyAttachment
      rw [hd, hp]
    have hnot : ¬(maxFileSize < p.fileSize) := not_lt.mpr hsize
    rw [handleFile_linked env stores m ut h1 h2 h3]
    simp only [hcls]
    unfold relayFile
    rw [if_neg hnot, hurl]
    simp [hget]

/-- Witness for C6: the photo scenario of the claim, two size variants with the
larger one having file id "photoXL"; the upload is named "photoXL.jpg". -/
theorem attachment_classification_witness :
    Action.driveUpload "photoXL.jpg" "JPG" ∈
      handleFile ⟨false, true, fun _ => some "https://tg.example/f/photoXL",
          fun _ => some ⟨200, "JPG"⟩, true⟩
        xStores ⟨7, 7, 1, "", false, "", none, [⟨"photoS", 1000⟩, ⟨"photoXL", 2000⟩]⟩ :=
  (attachment_classification
    ⟨7, 7, 1, "", false, "", none, [⟨"photoS", 1000⟩, ⟨"photoXL", 2000⟩]⟩
    ⟨"", "", 0⟩ ⟨"photoXL", 2000⟩
    ⟨false, true, fun _ => some "https://tg.example/f/photoXL",
     fun _ => some ⟨200, "JPG"⟩, true⟩
    xStores xUT "https://tg.example/f/photoXL" ⟨200, "JPG"⟩).2.2.2
    rfl rfl rfl rfl rfl (by decide) rfl rfl

/-- Claim C7: a successful callback stores for the owning user exactly the
four token fields returned by the exchange (with the user id and write
time), and a later file relay for that user reads the record and builds
its OAuth client from exactly those four stored fields. -/
theorem credential_roundtrip (cbenv : CallbackEnv) (fenv : FileEnv) (stores : Stores)
    (st code : String) (sd : StateData) (tok : OAuthToken) (msg : Message)
    (hst : alookup stores.states st = some sd)
    (hex : cbenv.exchange code = some tok)
    (hsave : cbenv.saveTokenOk = true)
    (hfrom : msg.fromID = sd.userID)
    (htrans : fenv.lookupTransientFail = false) :
    alookup (oauthCallbackHandler cbenv stores st code).2.tokens (tokenDocID sd.userID) =
      some ⟨sd.userID, tok.refreshToken, tok.tokenType, tok.expiry, tok.accessToken, cbenv.now⟩ ∧
    Action.buildDriveClient ⟨tok.accessToken, tok.tokenType, tok.refreshToken, tok.expiry⟩ ∈
      handleFile fenv (oauthCallbackHandler cbenv stores st code).2 msg := by
  rw [callback_success cbenv stores st code sd tok hst hex hsave]
  have hlook : alookup
      (aupsert (tokenDocID sd.userID)
        ⟨sd.userID, tok.refreshToken, tok.tokenType, tok.expiry, tok.accessToken, cbenv.now⟩
        stores.tokens)
      (tokenDocID msg.fromID) =
      some ⟨sd.userID, tok.refreshToken, tok.tokenType, tok.expiry, tok.accessToken, cbenv.now⟩ := by
    rw [hfrom]
    exact alookup_aupsert_self _ _ _
  refine ⟨by rw [hfrom] at hlook; exact hlook, ?_⟩
  rw [handleFile_found fenv _ msg
    ⟨sd.userID, tok.refreshToken, tok.tokenType, tok.expiry, tok.accessToken, cbenv.now⟩
    htrans hlook]
  simp

/-- Witness for C7: the round trip at a concrete state, exchange outcome
and message. -/
theorem credential_roundtrip_witness :
    alookup (oauthCallbackHandler wEnvOk wStores "stateTok" "code").2.tokens (tokenDocID 7) =
      some ⟨7, "ref", "Bearer", 99, "acc", 5⟩ ∧
    Action.buildDriveClient ⟨"acc", "Bearer", "ref", 99⟩ ∈
      handleFile xEnv404 (oauthCallbackHandler wEnvOk wStores "stateTok" "code").2 xMsg :=
  credential_roundtrip wEnvOk xEnv404 wStores "stateTok" "code" ⟨7, 0⟩ wTok xMsg
    rfl rfl rfl rfl rfl

/-- Claim C8: the webhook handler answers HTTP 400 with no further
processing when the body fails to decode, and HTTP 200 for every decoded
update - updates with no message, command messages, text messages and
file events alike - whatever the business outcome. -/
theorem webhook_status (cenv : ConnectEnv) (fenv : FileEnv) (stores : Stores) (u : Update) :
    (webhookHandler cenv fenv stores none).1 = 400 ∧
    (webhookHandler cenv fenv stores none).2.1 = [] ∧
    (webhookHandler cenv fenv stores (some u)).1 = 200 := by
  refine ⟨rfl, rfl, ?_⟩
  unfold webhookHandler
  obtain ⟨message⟩ := u
  cases message with
  | none => rfl
  | some m =>
    by_cases hc : m.isCommand = true
    · by_cases h1 : m.command = "start"
      · simp [hc, h1]
      · by_cases h2 : m.command = "connect_drive" <;> simp [hc, h1, h2]
    · by_cases hd : (m.document.isSome || !m.photo.isEmpty) = true <;>
        simp [hc, hd]

/-- Claim C9: under the Go 1.24 toolchain pinned by the Dockerfile,
crypto/rand.Read always fills the 32-byte buffer and never reports an
error, so every issued state token is the URL-safe base64 encoding of the
32 bytes drawn from the random source - a 44-character string - and the
encoding is injective on byte lists, so distinct 256-bit source outputs
always yield distinct tokens. -/
theorem state_token_entropy (env : ConnectEnv) (stores : Stores) (msg : Message)
    (hlen : env.randBytes.length = 32)
    (hbytes : ∀ b ∈ env.randBytes, b < 256)
    (hsave : env.saveStateOk = true) :
    (handleConnectDrive env stores msg).1 =
      [Action.reply (Reply.authLink (authCodeURL (base64URL env.randBytes)))] ∧
    alookup (handleConnectDrive env stores msg).2.states (base64URL env.randBytes) =
      some ⟨msg.fromID, env.now⟩ ∧
    (base64URL env.randBytes).data.length = 44 ∧
    (∀ bs2 : List Nat, (∀ b ∈ bs2, b < 256) →
      base64URL env.randBytes = base64URL bs2 → env.randBytes = bs2) := by
  have hcd : handleConnectDrive env stores msg =
      ([Action.reply (Reply.authLink (authCodeURL (base64URL env.randBytes)))],
       ⟨aupsert (base64URL env.randBytes) ⟨msg.fromID, env.now⟩ stores.states,
        stores.tokens⟩) := by
    unfold handleConnectDrive
    simp [hsave]
  refine ⟨by rw [hcd], by rw [hcd]; exact alookup_aupsert_self _ _ _, ?_, ?_⟩
  · show (encodeGroups env.randBytes).length = 44
    rw [encodeGroups_length, hlen]
  · intro bs2 hb2 he
    exact encodeGroups_inj _ _ hbytes hb2 (congrArg String.data he)

/-- Witness for C9 at the concrete 32-byte source output 0,1,...,31. -/
theorem state_token_entropy_witness :
    alookup (handleConnectDrive ⟨List.range 32, true, 3⟩ ⟨[], []⟩ xMsg).2.states
      (base64URL (List.range 32)) = some ⟨7, 3⟩ :=
  (state_token_entropy ⟨List.range 32, true, 3⟩ ⟨[], []⟩ xMsg
    (by decide) (by decide) rfl).2.1

end TgHelper
